import Mathlib

/-
  Verification development for the ticket-booking agent's core scraper module
  (`src/web_scraper.py`): a shallow embedding of the `WebScraper` class's
  booking orchestration loop and its helper steps, together with theorems
  about the embedded definitions.

  Modelling conventions:
  * Browser/AI interactions are oracles: each iteration of the booking loop
    receives an environment record describing what the external world did
    (which selectors matched, whether an operation raised, the page source).
  * Python exceptions are modelled explicitly: an `Option String` field in an
    environment is the message of an exception raised by the corresponding
    block of external calls; `try/except` becomes a `match` on that field.
  * Python strings are Lean `String`s; `str.lower()` is ASCII lowering
    (the inputs of interest are ASCII); `needle in hay` is a substring test.
  * Python `float` on the captured decimal strings is modelled as exact
    decimal-to-rational parsing (the values of interest, such as 45.5, are
    exactly representable, so no rounding is involved).
  * The machine integers are `Nat` (all the counters involved are
    non-negative and far from any overflow boundary).
-/

/-! ### Generic string helpers -/

/-- Case lowering of a character list, modelling Python `str.lower()` on
ASCII text. -/
def lower_chars (l : List Char) : List Char :=
  l.map Char.toLower

/-- Does `l` start with `needle` (exact character equality)? -/
def starts_with_chars : List Char → List Char → Bool
  | [], _ => true
  | _ :: _, [] => false
  | a :: as, b :: bs => a == b && starts_with_chars as bs

/-- Substring containment, modelling Python `needle in hay` on strings. -/
def sub_in_chars (needle : List Char) : List Char → Bool
  | [] => starts_with_chars needle []
  | c :: rest => starts_with_chars needle (c :: rest) || sub_in_chars needle rest

/-- `needle in hay` on `String`s. -/
def str_has_sub (hay needle : String) : Bool :=
  sub_in_chars needle.toList hay.toList

/-- Python `dict.get(key, default)` on an association list (the association
list keeps Python's insertion order). -/
def dict_get (d : List (String × String)) (key dflt : String) : String :=
  match d.find? (fun p => p.1 == key) with
  | some p => p.2
  | none => dflt

/-! ### `WebScraper._fallback_form_data` (src/web_scraper.py lines 413-434)

Generates form data without LLM assistance: a keyword heuristic on the
lowercased field name. The Python iterates over `form_data.keys()` in
insertion order and builds a dict in that order; we map over the ordered
list of field names. -/

def fallback_form_data (field_names : List String) (user_info : List (String × String))
    (ticket_count : Nat) : List (String × String) :=
  field_names.map fun field_name =>
    let field_lower := String.mk (lower_chars field_name.toList)
    (field_name,
      if [("name"), ("first"), ("last")].any (fun k => str_has_sub field_lower k) then
        dict_get user_info ("name") ("John Doe")
      else if str_has_sub field_lower ("email") then
        dict_get user_info ("email") ("user@example.com")
      else if str_has_sub field_lower ("phone") then
        dict_get user_info ("phone") ("+1234567890")
      else if [("quantity"), ("ticket"), ("count")].any (fun k => str_has_sub field_lower k) then
        toString ticket_count
      else if str_has_sub field_lower ("address") then
        dict_get user_info ("address") ("123 Main St")
      else
        (""))

/-! ### A small backtracking regex engine

`re.search` with `re.IGNORECASE` is used by `_extract_confirmation_details`
(src/web_scraper.py lines 526-563) on five fixed patterns.  Each pattern is
a prefix (literals, `\s*`, optional groups, ordered alternation) followed by
one trailing capture group.  The engine below implements Python's leftmost
search with greedy, backtracking matching: ordered choice tries the left
alternative first, `?` tries the present case first, and a class star tries
the longest run first, exactly as the `re` module does on these patterns. -/

/-- Regular-expression syntax for the scraper's patterns: literals (matched
case-insensitively, as all five patterns carry `re.IGNORECASE`), single
character classes, sequencing, ordered alternation, greedy option and greedy
star of a character class. -/
inductive Rx where
  | eps : Rx
  | lit : List Char → Rx
  | cls : (Char → Bool) → Rx
  | seq : Rx → Rx → Rx
  | alt : Rx → Rx → Rx
  | opt : Rx → Rx
  | star : (Char → Bool) → Rx

/-- Consume a case-insensitive literal, returning the rest of the input. -/
def match_lit : List Char → List Char → Option (List Char)
  | [], s => some s
  | _ :: _, [] => none
  | a :: l2, c :: s2 => if a.toLower == c.toLower then match_lit l2 s2 else none

/-- Greedy backtracking star of a character class: try the continuation after
the longest run of class characters first, giving back one character at a
time on failure. -/
def match_star (p : Char → Bool) (s : List Char) (k : List Char → Option (List Char)) :
    Option (List Char) :=
  match s with
  | [] => k []
  | c :: rest =>
    if p c then
      match match_star p rest k with
      | some r => some r
      | none => k (c :: rest)
    else k (c :: rest)

/-- Backtracking matcher in continuation style: `rx_match r s k` tries to
match `r` against an initial segment of `s` and runs `k` on the remainder,
exploring alternatives in Python `re`'s order. -/
def rx_match : Rx → List Char → (List Char → Option (List Char)) → Option (List Char)
  | .eps, s, k => k s
  | .lit l, s, k =>
    match match_lit l s with
    | some s2 => k s2
    | none => none
  | .cls p, s, k =>
    match s with
    | [] => none
    | c :: s2 => if p c then k s2 else none
  | .seq a b, s, k => rx_match a s (fun s2 => rx_match b s2 k)
  | .alt a b, s, k =>
    match rx_match a s k with
    | some r => some r
    | none => rx_match b s k
  | .opt a, s, k =>
    match rx_match a s k with
    | some r => some r
    | none => k s
  | .star p, s, k => match_star p s k

/-- Sequence a list of regexes. -/
def rx_seq_all : List Rx → Rx
  | [] => .eps
  | r :: rest => .seq r (rx_seq_all rest)

/-- Leftmost search: try the pattern prefix at every start position from the
left; on a prefix match, run the trailing capture on the remainder. -/
def search_cap (pre : Rx) (cap : List Char → Option (List Char)) :
    List Char → Option (List Char)
  | [] => rx_match pre [] cap
  | c :: rest =>
    match rx_match pre (c :: rest) cap with
    | some r => some r
    | none => search_cap pre cap rest

/-- Python `\s` (ASCII): space, tab, newline, carriage return, vertical tab,
form feed. -/
def ws_char (c : Char) : Bool :=
  c == ' ' || c == '\t' || c == '\n' || c == '\r' || c == '\x0b' || c == '\x0c'

/-- `[A-Z0-9]` under `re.IGNORECASE` (ASCII): a letter or a digit. -/
def is_conf_char (c : Char) : Bool :=
  (decide ('a' ≤ c.toLower) && decide (c.toLower ≤ 'z')) ||
    (decide ('0' ≤ c) && decide (c ≤ '9'))

/-- `[0-9]`. -/
def is_digit_char (c : Char) : Bool :=
  decide ('0' ≤ c) && decide (c ≤ '9')

/-- The trailing capture `([A-Z0-9]+)` of the confirmation-number patterns:
greedy and final in the pattern, so it captures the maximal run, requiring at
least one character. -/
def cap_conf (s : List Char) : Option (List Char) :=
  let run := s.takeWhile is_conf_char
  if run.isEmpty then none else some run

/-- The trailing capture `([0-9]+\.?[0-9]*)` of the cost patterns: greedy and
final, so maximal digits, then an optional dot, then maximal digits. -/
def cap_cost (s : List Char) : Option (List Char) :=
  let d1 := s.takeWhile is_digit_char
  if d1.isEmpty then none
  else
    match s.drop d1.length with
    | '.' :: s2 => some (d1 ++ '.' :: s2.takeWhile is_digit_char)
    | _ => some d1

/-- Shared shape of the three confirmation-number pattern prefixes:
`WORD\s*(?:MID|#)?\s*:?\s*` where `MID` is `number` or `reference`. -/
def conf_pre (word : String) (mid : String) : Rx :=
  rx_seq_all [Rx.lit word.toList, Rx.star ws_char,
    Rx.opt (Rx.alt (Rx.lit mid.toList) (Rx.lit [('#')])), Rx.star ws_char,
    Rx.opt (Rx.lit [(':')]), Rx.star ws_char]

/-- The three `conf_patterns` of `_extract_confirmation_details`, in source
order (their common trailing capture group is `cap_conf`). -/
def conf_patterns : List Rx :=
  [conf_pre ("confirmation") ("number"),
   conf_pre ("order") ("number"),
   conf_pre ("booking") ("reference")]

/-- Prefix of a cost pattern: `WORD\s*:?\s*\$?`. -/
def cost_pre (word : String) : Rx :=
  rx_seq_all [Rx.lit word.toList, Rx.star ws_char, Rx.opt (Rx.lit [(':')]),
    Rx.star ws_char, Rx.opt (Rx.lit [('$')])]

/-- The two `cost_patterns` of `_extract_confirmation_details`, in source
order (their common trailing capture group is `cap_cost`). -/
def cost_patterns : List Rx :=
  [cost_pre ("total"), cost_pre ("amount")]

/-- First-match-wins over an ordered pattern list: the `for pattern in
...: if match: ...; break` loops of `_extract_confirmation_details`. -/
def first_pat_match (pres : List Rx) (cap : List Char → Option (List Char))
    (text : List Char) : Option (List Char) :=
  match pres with
  | [] => none
  | p :: rest =>
    match search_cap p cap text with
    | some r => some r
    | none => first_pat_match rest cap text

/-- Digit run to a number. -/
def digits_to_nat (l : List Char) : Nat :=
  l.foldl (fun a c => a * 10 + (c.toNat - ('0').toNat)) 0

/-- Python `float` applied to a captured decimal string (digits, optional
dot, digits), modelled exactly as a rational. -/
def parse_float_dec (s : List Char) : Rat :=
  let ip := s.takeWhile is_digit_char
  match s.drop ip.length with
  | '.' :: fp => (digits_to_nat ip : Rat) + (digits_to_nat fp : Rat) / ((10 : Rat) ^ fp.length)
  | _ => (digits_to_nat ip : Rat)

/-- Crude model of `BeautifulSoup(...).get_text()`: drop `<...>` tag spans.
(`full_content` is stored for the email collaborator only; no claim depends
on its exact value, and on tag-free text this is the identity.) -/
def strip_tags_aux : List Char → Bool → List Char
  | [], _ => []
  | c :: rest, true => if c == '>' then strip_tags_aux rest false else strip_tags_aux rest true
  | c :: rest, false => if c == '<' then strip_tags_aux rest true else c :: strip_tags_aux rest false

/-- The mapping built by `_extract_confirmation_details` (src/web_scraper.py
lines 526-563): optional keys `number` and `total_cost` (absent when no
pattern matched, mirroring the Python dict missing the key), plus the
full-text field. -/
structure ConfDetails where
  number : Option String := none
  total_cost : Option Rat := none
  full_content : String := ("")
deriving Repr, DecidableEq

/-- `WebScraper._extract_confirmation_details` on the page source: scan the
ordered confirmation-number patterns (first match wins), then the ordered
cost patterns (first match wins), then store the tag-stripped page text. -/
def extract_confirmation_details (page_text : String) : ConfDetails :=
  let cs := page_text.toList
  { number := (first_pat_match conf_patterns cap_conf cs).map (fun l => String.mk l),
    total_cost := (first_pat_match cost_patterns cap_cost cs).map (fun l => parse_float_dec l),
    full_content := String.mk (strip_tags_aux cs false) }

/-! ### Data model: booking results and scraper state -/

/-- The `BookingResult` dataclass (src/web_scraper.py lines 41-49).  The
Python `booking_details` dict defaults to `None`; on success it holds the
extracted confirmation mapping. -/
structure BookingResult where
  success : Bool
  tickets_booked : Nat
  confirmation_number : String := ("")
  error_message : String := ("")
  booking_details : Option ConfDetails := none
  total_cost : Rat := 0
deriving Repr, DecidableEq

/-- The failed result built by the orchestrator's exception handler
(src/web_scraper.py lines 204-208): only `success`, `tickets_booked` and
`error_message` are set. -/
def failed_result (msg : String) : BookingResult :=
  { success := false, tickets_booked := 0, error_message := msg }

/-- The `WebScraper` instance attributes that the booking loop reads and
writes (src/web_scraper.py lines 74-75): both initialised to 0 in
`__init__` and never reset afterwards. -/
structure ScraperState where
  booking_attempts : Nat
  successful_bookings : Nat
deriving Repr, DecidableEq

/-- A fresh scraper, as built by `__init__`. -/
def fresh_scraper : ScraperState :=
  { booking_attempts := 0, successful_bookings := 0 }

/-! ### `WebScraper._handle_captcha` (src/web_scraper.py lines 436-482) -/

/-- Oracle for one run of `_handle_captcha`: what the browser and the AI
agent did.
* `selector_hits` — for each entry of `captcha_selectors` in order, whether
  `find_element` succeeded (the loop keeps the first hit);
* `has_agent` — `self.llm_agent` is not `None`;
* `screenshot_ok` — `captcha_element.screenshot` raised no exception;
* `solve_result` — the string returned by `llm_agent.solve_captcha`
  (that method catches its own errors and returns `""` on failure);
* `answer_ok` — locating the CAPTCHA answer input and typing into it
  raised no exception. -/
structure CaptchaEnv where
  selector_hits : List Bool
  has_agent : Bool
  screenshot_ok : Bool
  solve_result : String
  answer_ok : Bool
deriving Repr, DecidableEq

/-- `_handle_captcha`, returning its boolean result paired with the number
of AI calls made (`solve_captcha` invocations).  Exceptions raised inside
the body are caught by the function's own `except` and produce `false`. -/
def handle_captcha (e : CaptchaEnv) : Bool × Nat :=
  if !(e.selector_hits.any id) then
    (true, 0)
  else if !e.has_agent then
    (false, 0)
  else if !e.screenshot_ok then
    (false, 0)
  else
    let solution := e.solve_result
    if solution = ("") then (false, 1)
    else if e.answer_ok then (true, 1)
    else (false, 1)

/-! ### `WebScraper._attempt_booking` (src/web_scraper.py lines 279-328) -/

/-- Oracle for one run of `_attempt_booking`.
* `exn` — `some msg` when an uncaught exception with message `msg` is
  raised in the body (caught at lines 323-328);
* `form_fields` — the field names returned by `_extract_form_fields`
  (which catches its own errors and returns `{}`, here `[]`);
* `captcha` — the oracle for the `_handle_captcha` call;
* `submit_ok` — the result of `_submit_booking_form` (which catches its
  own errors and returns `False`);
* `conf_page` — the page source read by `_extract_confirmation_details`
  after a successful submission.

`_fill_booking_form` is also called, but it catches all of its own
exceptions and its returned mapping is never read by `_attempt_booking`,
so it does not appear in the oracle. -/
structure AttemptEnv where
  exn : Option String
  form_fields : List String
  captcha : CaptchaEnv
  submit_ok : Bool
  conf_page : String
deriving Repr, DecidableEq

/-- `_attempt_booking`: returns a `BookingResult` on every path; on success
the result reports exactly the requested `ticket_count` as booked and
carries the extracted confirmation details. -/
def attempt_booking (env : AttemptEnv) (ticket_count : Nat) : BookingResult :=
  match env.exn with
  | some m => failed_result (("Booking error: ") ++ m)
  | none =>
    if env.form_fields.isEmpty then
      failed_result ("No booking form found")
    else if !(handle_captcha env.captcha).1 then
      failed_result ("CAPTCHA solving failed")
    else if env.submit_ok then
      let conf := extract_confirmation_details env.conf_page
      { success := true,
        tickets_booked := ticket_count,
        confirmation_number := conf.number.getD (""),
        booking_details := some conf,
        total_cost := conf.total_cost.getD 0 }
    else
      failed_result ("Form submission failed")

/-! ### Page classification (src/web_scraper.py lines 230-245) -/

/-- The `ticket_indicators` keyword list of `_is_ticket_page`. -/
def ticket_indicators : List String :=
  [("ticket"), ("book"), ("purchase"), ("buy"), ("order"), ("reserve"),
   ("quantity"), ("seats"), ("checkout"), ("cart")]

/-- `_is_ticket_page`: any indicator occurs in the lowercased page source. -/
def is_ticket_page (page_text : String) : Bool :=
  let lowered := String.mk (lower_chars page_text.toList)
  ticket_indicators.any (fun ind => str_has_sub lowered ind)

/-- `_needs_navigation`: the CSS query for ticket/book links returned at
least one element (`nav_elem_count` is the length of that element list). -/
def needs_navigation (nav_elem_count : Nat) : Bool :=
  decide (0 < nav_elem_count)

/-! ### `WebScraper._navigate_to_booking_page` (src/web_scraper.py 247-277) -/

/-- Oracle for one run of `_navigate_to_booking_page`.
* `next_steps` — `page_analysis["next_steps"]` (the loop over these steps
  has `pass` as its body in the source, so it has no effect);
* `selector_hits` — for each of the seven `booking_selectors` in order,
  whether `wait.until` found a clickable element (a miss raises
  `TimeoutException`, and the loop moves to the next selector);
* `post_ok` — the `_safe_click`/`_wait_for_page_load` pair after the first
  hit raised no exception (an exception there is caught by the method's
  own `except` and yields `False`). -/
structure NavEnv where
  next_steps : List String
  selector_hits : List Bool
  post_ok : Bool
deriving Repr, DecidableEq

/-- `_navigate_to_booking_page`: `True` iff some booking selector matched
and the click/load afterwards went through.  (The `_safe_click` return
value itself is discarded by the source.) -/
def navigate_to_booking_page (n : NavEnv) : Bool :=
  if n.selector_hits.any id then n.post_ok else false

/-! ### `WebScraper.book_tickets` (src/web_scraper.py lines 155-214) -/

/-- Oracle for one iteration of the booking loop.
* `exn` — `some msg` when this iteration's `driver.get`, page-load wait,
  page analysis or classification raised an exception with message `msg`
  (caught by the handler at lines 202-208);
* `page_text` — `driver.page_source` used by `_is_ticket_page`;
* `nav_elem_count` — how many elements the `_needs_navigation` CSS query
  found;
* `nav` — the oracle for `_navigate_to_booking_page`, if it runs;
* `attempt` — the oracle for `_attempt_booking`, if it runs. -/
structure IterEnv where
  exn : Option String
  page_text : String
  nav_elem_count : Nat
  nav : NavEnv
  attempt : AttemptEnv
deriving Repr, DecidableEq

/-- Outcome of one loop iteration (after the attempt counter was already
incremented): whether the `else: break` at line 200 fired, the new value of
the local `remaining_tickets`, the new instance state, and the results
appended by this iteration (zero or one). -/
structure StepOut where
  broke : Bool
  rem : Nat
  st : ScraperState
  res : List BookingResult
deriving Repr, DecidableEq

/-- The body of one `while` iteration of `book_tickets` (lines 175-208):
classify the page (`_is_ticket_page` first, `_needs_navigation` second),
then either attempt a booking for `min remaining 4` tickets, or run one
navigation step whose boolean result is discarded, or break; an exception
in the body becomes one failed result and the loop goes on. -/
def book_step (env : IterEnv) (rem : Nat) (st : ScraperState) : StepOut :=
  match env.exn with
  | some msg => { broke := false, rem := rem, st := st, res := [failed_result msg] }
  | none =>
    if is_ticket_page env.page_text then
      let result := attempt_booking env.attempt (min rem 4)
      if result.success then
        { broke := false,
          rem := rem - result.tickets_booked,
          st := { st with
            successful_bookings := st.successful_bookings + result.tickets_booked },
          res := [result] }
      else
        { broke := false, rem := rem, st := st, res := [result] }
    else if needs_navigation env.nav_elem_count then
      let _nav := navigate_to_booking_page env.nav
      { broke := false, rem := rem, st := st, res := [] }
    else
      { broke := true, rem := rem, st := st, res := [] }

/-- What a whole `book_tickets` call produces: the final value of the local
`remaining_tickets`, the final instance state, and the returned result
list. -/
structure RunOut where
  rem : Nat
  st : ScraperState
  res : List BookingResult
deriving Repr, DecidableEq

/-- One guarded iteration: `self.booking_attempts += 1` (line 172) followed
by the iteration body, whose oracle is the one assigned to the new attempt
number. -/
def iter_out (envs : Nat → IterEnv) (rem : Nat) (st : ScraperState) : StepOut :=
  book_step (envs (st.booking_attempts + 1)) rem
    { st with booking_attempts := st.booking_attempts + 1 }

/-- The `while remaining_tickets > 0 and self.booking_attempts <
self.max_retries` loop.  `envs` assigns to each attempt number the oracle
for that iteration.  The fuel argument only bounds the recursion: because
every iteration increments `booking_attempts` and the guard requires
`booking_attempts < max_retries`, a fuel of `max_retries` is never
exhausted while the guard still holds, so the fuel-0 return coincides with
the guard-false return (`book_tickets_aux_fuel_le` below makes this
precise). -/
def book_tickets_aux (max_retries : Nat) (envs : Nat → IterEnv) :
    Nat → Nat → ScraperState → List BookingResult → RunOut
  | 0, rem, st, acc => { rem := rem, st := st, res := acc }
  | fuel + 1, rem, st, acc =>
    if 0 < rem ∧ st.booking_attempts < max_retries then
      if (iter_out envs rem st).broke then
        { rem := (iter_out envs rem st).rem, st := (iter_out envs rem st).st,
          res := acc ++ (iter_out envs rem st).res }
      else
        book_tickets_aux max_retries envs fuel (iter_out envs rem st).rem
          (iter_out envs rem st).st (acc ++ (iter_out envs rem st).res)
    else
      { rem := rem, st := st, res := acc }

/-- `WebScraper.book_tickets`: run the loop from the current instance state
with `remaining_tickets = ticket_count` and an empty result list. -/
def book_tickets (max_retries : Nat) (envs : Nat → IterEnv) (st : ScraperState)
    (ticket_count : Nat) : RunOut :=
  book_tickets_aux max_retries envs max_retries ticket_count st []

/-- `sum(r.tickets_booked for r in results if r.success)`. -/
def sum_success_tickets : List BookingResult → Nat
  | [] => 0
  | r :: rest => (if r.success then r.tickets_booked else 0) + sum_success_tickets rest

/-! ### Concrete environments used to instantiate the theorems -/

/-- A navigation oracle in which none of the seven `booking_selectors`
matched (and the advisory `next_steps` list is empty): the navigation step
finds nothing and returns `False`. -/
def idle_nav : NavEnv :=
  { next_steps := [],
    selector_hits := [false, false, false, false, false, false, false],
    post_ok := true }

/-- A page with none of the five `captcha_selectors` matching. -/
def no_captcha : CaptchaEnv :=
  { selector_hits := [false, false, false, false, false], has_agent := false,
    screenshot_ok := true, solve_result := (""), answer_ok := true }

/-- A page whose first CAPTCHA selector matches, on a scraper with no LLM
agent configured. -/
def captcha_hit : CaptchaEnv :=
  { selector_hits := [true, false, false, false, false], has_agent := false,
    screenshot_ok := true, solve_result := (""), answer_ok := true }

/-- An attempt in which everything succeeds: a form is found, no CAPTCHA is
present, submission verifies. -/
def ok_attempt : AttemptEnv :=
  { exn := none, form_fields := [("name")], captcha := no_captcha,
    submit_ok := true, conf_page := ("") }

/-- An attempt whose body raises an exception with message `oops`. -/
def exn_attempt : AttemptEnv :=
  { exn := some ("oops"), form_fields := [], captcha := no_captcha,
    submit_ok := false, conf_page := ("") }

/-- An iteration on a page that is not bookable (`welcome` contains no
ticket indicator) but has one navigation element — and the navigation step
then finds no matching selector. -/
def nav_iter : IterEnv :=
  { exn := none, page_text := ("welcome"), nav_elem_count := 1,
    nav := idle_nav, attempt := ok_attempt }

/-- An iteration on a bookable page (`Buy tickets here` contains the
indicators `ticket` and `buy`) whose attempt succeeds. -/
def book_iter : IterEnv :=
  { exn := none, page_text := ("Buy tickets here"), nav_elem_count := 0,
    nav := idle_nav, attempt := ok_attempt }

/-- An iteration whose body raises an exception with message `boom`. -/
def raise_iter : IterEnv :=
  { exn := some ("boom"), page_text := (""), nav_elem_count := 0,
    nav := idle_nav, attempt := ok_attempt }

/-- The environment of the C1 counterexample: attempt 1 sees the
navigation-needed page on which navigation then fails; any later attempt
raises. -/
def c1_envs : Nat → IterEnv :=
  fun n => if n = 1 then nav_iter else raise_iter

/-! ### Supporting lemmas about single steps -/

/-- `sum_success_tickets` distributes over append. -/
theorem sum_success_tickets_append (a b : List BookingResult) :
    sum_success_tickets (a ++ b) = sum_success_tickets a + sum_success_tickets b := by
  induction a with
  | nil => simp [sum_success_tickets]
  | cons r rest ih => simp [sum_success_tickets, ih]; omega

/-- An `_attempt_booking` result books exactly the requested quantity on
success and zero tickets on failure. -/
theorem attempt_booking_tickets (env : AttemptEnv) (tc : Nat) :
    (attempt_booking env tc).tickets_booked =
      if (attempt_booking env tc).success then tc else 0 := by
  unfold attempt_booking failed_result
  rcases env.exn with _ | m
  · dsimp only
    split_ifs <;> simp_all
  · rfl

/-- Basic facts about one iteration body: the attempt counter is untouched,
`remaining_tickets + successful_bookings` is preserved, the successfully
booked tickets of the appended results are exactly the growth of
`successful_bookings`, and at most one result is appended. -/
theorem book_step_facts (env : IterEnv) (rem : Nat) (st : ScraperState) :
    (book_step env rem st).st.booking_attempts = st.booking_attempts
  ∧ (book_step env rem st).rem + (book_step env rem st).st.successful_bookings
      = rem + st.successful_bookings
  ∧ sum_success_tickets (book_step env rem st).res + st.successful_bookings
      = (book_step env rem st).st.successful_bookings
  ∧ (book_step env rem st).res.length ≤ 1 := by
  unfold book_step
  rcases env.exn with _ | m
  · dsimp only
    by_cases h1 : is_ticket_page env.page_text
    · have ht := attempt_booking_tickets env.attempt (min rem 4)
      by_cases h2 : (attempt_booking env.attempt (min rem 4)).success
      · simp only [h2, if_true] at ht
        simp [h1, h2, sum_success_tickets, ht, failed_result]
        omega
      · simp [h1, h2, sum_success_tickets, failed_result]
    · by_cases h3 : needs_navigation env.nav_elem_count <;>
        simp [h1, h3, sum_success_tickets]
  · simp [sum_success_tickets, failed_result]

/-- `iter_out` facts: the attempt counter grows by exactly one, the
`remaining + successful` total is preserved, the appended successes equal
the growth of `successful_bookings`, and at most one result is appended. -/
theorem iter_out_facts (envs : Nat → IterEnv) (rem : Nat) (st : ScraperState) :
    (iter_out envs rem st).st.booking_attempts = st.booking_attempts + 1
  ∧ (iter_out envs rem st).rem + (iter_out envs rem st).st.successful_bookings
      = rem + st.successful_bookings
  ∧ sum_success_tickets (iter_out envs rem st).res + st.successful_bookings
      = (iter_out envs rem st).st.successful_bookings
  ∧ (iter_out envs rem st).res.length ≤ 1 := by
  unfold iter_out
  simpa using
    book_step_facts (envs (st.booking_attempts + 1)) rem
      { st with booking_attempts := st.booking_attempts + 1 }

/-- When the `while` guard is false the loop returns at once, for any fuel. -/
theorem book_tickets_aux_stop (max_retries : Nat) (envs : Nat → IterEnv)
    (f rem : Nat) (st : ScraperState) (acc : List BookingResult)
    (h : ¬(0 < rem ∧ st.booking_attempts < max_retries)) :
    book_tickets_aux max_retries envs f rem st acc = { rem := rem, st := st, res := acc } := by
  cases f with
  | zero => rfl
  | succ g =>
    unfold book_tickets_aux
    rw [if_neg h]

/-- When the `while` guard holds, one unfolding of the loop. -/
theorem book_tickets_aux_go (max_retries : Nat) (envs : Nat → IterEnv)
    (g rem : Nat) (st : ScraperState) (acc : List BookingResult)
    (h : 0 < rem ∧ st.booking_attempts < max_retries) :
    book_tickets_aux max_retries envs (g + 1) rem st acc =
      if (iter_out envs rem st).broke then
        { rem := (iter_out envs rem st).rem, st := (iter_out envs rem st).st,
          res := acc ++ (iter_out envs rem st).res }
      else
        book_tickets_aux max_retries envs g (iter_out envs rem st).rem
          (iter_out envs rem st).st (acc ++ (iter_out envs rem st).res) := by
  conv_lhs => rw [book_tickets_aux]
  rw [if_pos h]

/-- Combined loop facts, by induction on the fuel: the attempt counter never
decreases; it ends `≤ max_retries` unless it never moved; the
`remaining + successful` total is preserved; the successfully booked tickets
of the appended results are exactly the growth of `successful_bookings`;
and at most `fuel` results are appended. -/
theorem book_tickets_aux_facts (max_retries : Nat) (envs : Nat → IterEnv) :
    ∀ (f rem : Nat) (st : ScraperState) (acc : List BookingResult),
      st.booking_attempts
          ≤ (book_tickets_aux max_retries envs f rem st acc).st.booking_attempts
    ∧ ((book_tickets_aux max_retries envs f rem st acc).st.booking_attempts ≤ max_retries
        ∨ (book_tickets_aux max_retries envs f rem st acc).st.booking_attempts
            = st.booking_attempts)
    ∧ (book_tickets_aux max_retries envs f rem st acc).rem
          + (book_tickets_aux max_retries envs f rem st acc).st.successful_bookings
        = rem + st.successful_bookings
    ∧ sum_success_tickets (book_tickets_aux max_retries envs f rem st acc).res
          + st.successful_bookings
        = sum_success_tickets acc
          + (book_tickets_aux max_retries envs f rem st acc).st.successful_bookings
    ∧ (book_tickets_aux max_retries envs f rem st acc).res.length ≤ acc.length + f := by
  intro f
  induction f with
  | zero =>
    intro rem st acc
    refine ⟨?_, ?_, ?_, ?_, ?_⟩ <;> simp [book_tickets_aux]
  | succ g ih =>
    intro rem st acc
    by_cases h : 0 < rem ∧ st.booking_attempts < max_retries
    · rw [book_tickets_aux_go max_retries envs g rem st acc h]
      obtain ⟨ho1, ho2, ho3, ho4⟩ := iter_out_facts envs rem st
      by_cases hb : (iter_out envs rem st).broke
      · rw [if_pos hb]
        dsimp only
        rw [sum_success_tickets_append]
        simp only [List.length_append]
        omega
      · rw [if_neg hb]
        obtain ⟨ih1, ih2, ih3, ih4, ih5⟩ :=
          ih (iter_out envs rem st).rem (iter_out envs rem st).st
            (acc ++ (iter_out envs rem st).res)
        rw [sum_success_tickets_append] at ih4
        simp only [List.length_append] at ih5
        omega
    · rw [book_tickets_aux_stop max_retries envs (g + 1) rem st acc h]
      dsimp only
      exact ⟨le_refl _, Or.inr rfl, rfl, by omega, by omega⟩

/-- Fuel adequacy: as soon as the fuel covers `max_retries -
booking_attempts`, the loop's value no longer depends on it — so running
`book_tickets_aux` with fuel `max_retries` computes exactly what the
unbounded `while` loop does. -/
theorem book_tickets_aux_fuel_le (max_retries : Nat) (envs : Nat → IterEnv) :
    ∀ (f1 f2 rem : Nat) (st : ScraperState) (acc : List BookingResult),
      max_retries ≤ st.booking_attempts + f1 → f1 ≤ f2 →
      book_tickets_aux max_retries envs f1 rem st acc
        = book_tickets_aux max_retries envs f2 rem st acc := by
  intro f1
  induction f1 with
  | zero =>
    intro f2 rem st acc h hle
    rw [book_tickets_aux_stop max_retries envs 0 rem st acc (by omega),
      book_tickets_aux_stop max_retries envs f2 rem st acc (by omega)]
  | succ g ih =>
    intro f2 rem st acc h hle
    cases f2 with
    | zero => omega
    | succ g2 =>
      by_cases hg : 0 < rem ∧ st.booking_attempts < max_retries
      · rw [book_tickets_aux_go max_retries envs g rem st acc hg,
          book_tickets_aux_go max_retries envs g2 rem st acc hg]
        by_cases hb : (iter_out envs rem st).broke
        · rw [if_pos hb, if_pos hb]
        · rw [if_neg hb, if_neg hb]
          apply ih
          · have := (iter_out_facts envs rem st).1
            omega
          · omega
      · rw [book_tickets_aux_stop max_retries envs (g + 1) rem st acc hg,
          book_tickets_aux_stop max_retries envs (g2 + 1) rem st acc hg]

/-! ### Claim theorems -/

/-- C1, counterexample to the claim as stated.  In `book_tickets` the result
of `_navigate_to_booking_page` is discarded (line 196 of
src/web_scraper.py): here attempt 1 classifies the page as
navigation-needed, the navigation step finds no matching selector and no
usable AI action (it returns `False`), and yet the run does NOT abort — the
orchestrator performs a second attempt (final attempt counter 2) and even
appends that second attempt's result. -/
theorem C1_counterexample :
    navigate_to_booking_page nav_iter.nav = false
  ∧ (book_tickets 2 c1_envs fresh_scraper 3).st.booking_attempts = 2
  ∧ (book_tickets 2 c1_envs fresh_scraper 3).res = [failed_result ("boom")] := by
  decide

/-- C1 (amended): when an iteration classifies the page as
navigation-needed, the boolean result of the navigation step is discarded:
whether or not a selector or AI-suggested action was found, the loop does
not break and simply proceeds to the next iteration with state and
remaining tickets unchanged (only a page that is neither bookable nor
navigation-needed breaks the loop). -/
theorem C1_navigation_result_ignored (env : IterEnv) (rem : Nat) (st : ScraperState)
    (hexn : env.exn = none) (hticket : is_ticket_page env.page_text = false)
    (hnav : needs_navigation env.nav_elem_count = true) :
    book_step env rem st = { broke := false, rem := rem, st := st, res := [] } := by
  unfold book_step
  rw [hexn]
  simp [hticket, hnav]

/-- Witness for the amended C1 at the concrete navigation-failure
iteration. -/
theorem C1_navigation_result_ignored_witness :
    book_step nav_iter 3 fresh_scraper
      = { broke := false, rem := 3, st := fresh_scraper, res := [] } :=
  C1_navigation_result_ignored nav_iter 3 fresh_scraper rfl (by decide) (by decide)

/-- C2, counterexample to the claim as stated: on the fields
`["full_name","email_addr","qty"]` with user info `{name: Jane Doe, email:
jane@x.com}` and ticket count 3, the fallback filler does NOT produce
`qty ↦ "3"` — the lowercased field name `qty` contains none of the
substrings `quantity`, `ticket`, `count`, so the heuristic of
`_fallback_form_data` assigns it the empty string. -/
theorem C2_counterexample :
    fallback_form_data [("full_name"), ("email_addr"), ("qty")]
        [(("name"), ("Jane Doe")), (("email"), ("jane@x.com"))] 3
      ≠ [(("full_name"), ("Jane Doe")), (("email_addr"), ("jane@x.com")),
         (("qty"), ("3"))] := by
  decide

/-- C2 (amended): with the AI agent disabled, the fallback form filler on
fields `["full_name","email_addr","qty"]`, user info `{name: Jane Doe,
email: jane@x.com}` and ticket count 3 produces exactly
`{full_name: "Jane Doe", email_addr: "jane@x.com", qty: ""}` — `full_name`
matches the `name` keyword, `email_addr` matches `email`, and `qty` matches
no keyword, receiving the empty string. -/
theorem C2_fallback_filler_mapping :
    fallback_form_data [("full_name"), ("email_addr"), ("qty")]
        [(("name"), ("Jane Doe")), (("email"), ("jane@x.com"))] 3
      = [(("full_name"), ("Jane Doe")), (("email_addr"), ("jane@x.com")),
         (("qty"), (""))] := by
  decide

/-- C3: exceptions inside a loop iteration are always downgraded to a
failed `BookingResult` and never abort the run: (1) an exception raised in
the iteration body is caught by the orchestrator's handler, appending a
failed result whose `error_message` is exactly the exception's message, and
the iteration ends with `broke = false` — the loop continues; (2) an
exception inside `_attempt_booking` is caught by its own handler and
becomes a failed result carrying the message (prefixed `Booking error: `).
In the model both functions are total, so no exception propagates out of an
attempt. -/
theorem C3_exceptions_downgraded :
    (∀ (env : IterEnv) (rem : Nat) (st : ScraperState) (msg : String),
        env.exn = some msg →
        book_step env rem st
          = { broke := false, rem := rem, st := st, res := [failed_result msg] })
  ∧ (∀ (env : AttemptEnv) (tc : Nat) (msg : String),
        env.exn = some msg →
        attempt_booking env tc = failed_result (("Booking error: ") ++ msg)) := by
  constructor
  · intro env rem st msg h
    unfold book_step
    rw [h]
  · intro env tc msg h
    unfold attempt_booking
    rw [h]

/-- Witness for C3 at concrete exceptions. -/
theorem C3_exceptions_downgraded_witness :
    book_step raise_iter 3 fresh_scraper
        = { broke := false, rem := 3, st := fresh_scraper,
            res := [failed_result ("boom")] }
  ∧ attempt_booking exn_attempt 2 = failed_result (("Booking error: ") ++ ("oops")) :=
  ⟨C3_exceptions_downgraded.1 raise_iter 3 fresh_scraper ("boom") rfl,
   C3_exceptions_downgraded.2 exn_attempt 2 ("oops") rfl⟩

/-- C4: (1) every iteration — in particular every successful attempt —
preserves `remaining_tickets + successful_bookings = ticketCountRequested`;
(2) on a fresh scraper the invariant therefore holds at the end of the run,
and the total of `tickets_booked` over the successful results never exceeds
the requested ticket count. -/
theorem C4_tickets_conservation :
    (∀ (env : IterEnv) (rem : Nat) (st : ScraperState) (tc : Nat),
        rem + st.successful_bookings = tc →
        (book_step env rem st).rem + (book_step env rem st).st.successful_bookings = tc)
  ∧ (∀ (max_retries tc : Nat) (envs : Nat → IterEnv),
        (book_tickets max_retries envs fresh_scraper tc).rem
            + (book_tickets max_retries envs fresh_scraper tc).st.successful_bookings
          = tc
      ∧ sum_success_tickets (book_tickets max_retries envs fresh_scraper tc).res ≤ tc) := by
  constructor
  · intro env rem st tc h
    have hstep := (book_step_facts env rem st).2.1
    omega
  · intro max_retries tc envs
    obtain ⟨h1, h2, h3, h4, h5⟩ :=
      book_tickets_aux_facts max_retries envs max_retries tc fresh_scraper []
    have hz : fresh_scraper.successful_bookings = 0 := rfl
    have hz2 : sum_success_tickets [] = 0 := rfl
    unfold book_tickets
    omega

/-- Witness for C4: a preserved invariant at a concrete successful step, and
the concrete global bound. -/
theorem C4_tickets_conservation_witness :
    (book_step book_iter 10 fresh_scraper).rem
        + (book_step book_iter 10 fresh_scraper).st.successful_bookings = 10
  ∧ sum_success_tickets (book_tickets 3 (fun _ => book_iter) fresh_scraper 10).res ≤ 10 :=
  ⟨C4_tickets_conservation.1 book_iter 10 fresh_scraper 10 rfl,
   (C4_tickets_conservation.2 3 10 (fun _ => book_iter)).2⟩

/-- C5: a `book_tickets` run returns at most `max_retries` results: the
guard `booking_attempts < max_retries` is checked before each iteration,
the counter is incremented exactly once per iteration, and each iteration
appends at most one result. -/
theorem C5_results_length_bounded (max_retries tc : Nat) (envs : Nat → IterEnv)
    (st : ScraperState) :
    (book_tickets max_retries envs st tc).res.length ≤ max_retries := by
  have h := (book_tickets_aux_facts max_retries envs max_retries tc st []).2.2.2.2
  unfold book_tickets
  simpa using h

/-- C6: requesting zero tickets makes the `while` guard false immediately:
the run returns an empty result sequence, the instance state is untouched,
and no iteration — hence no page load and no navigation — takes place (the
output does not depend on the iteration oracles at all). -/
theorem C6_zero_tickets_no_iteration (max_retries : Nat) (envs : Nat → IterEnv)
    (st : ScraperState) :
    book_tickets max_retries envs st 0 = { rem := 0, st := st, res := [] } := by
  unfold book_tickets
  exact book_tickets_aux_stop max_retries envs max_retries 0 st [] (by omega)

/-- C7: `_handle_captcha` returns `True` making zero AI calls when no
CAPTCHA-detection selector matches, and returns `False` (also with zero AI
calls) when a CAPTCHA element was found but no LLM agent is configured. -/
theorem C7_captcha_early_paths :
    (∀ e : CaptchaEnv, e.selector_hits.any id = false → handle_captcha e = (true, 0))
  ∧ (∀ e : CaptchaEnv, e.selector_hits.any id = true → e.has_agent = false →
        handle_captcha e = (false, 0)) := by
  constructor
  · intro e h
    unfold handle_captcha
    simp [h]
  · intro e h hagent
    unfold handle_captcha
    simp [h, hagent]

/-- Witness for C7 at concrete pages. -/
theorem C7_captcha_early_paths_witness :
    handle_captcha no_captcha = (true, 0) ∧ handle_captcha captcha_hit = (false, 0) :=
  ⟨C7_captcha_early_paths.1 no_captcha (by decide),
   C7_captcha_early_paths.2 captcha_hit (by decide) rfl⟩

/-- C8: the confirmation extractor, whose ordered case-insensitive pattern
lists are applied first-match-wins (`first_pat_match` stops at the first
matching pattern, and `search_cap` takes the leftmost match), returns on
the page text `Your order number: AB12345 Total: $45.50` the confirmation
number `AB12345` (captured by the second number pattern, `order ...`) and
the total cost 45.5 (the exact rational 91/2, captured as `45.50` by the
first cost pattern, `total ...`). -/
theorem C8_confirmation_extraction :
    (extract_confirmation_details ("Your order number: AB12345 Total: $45.50")).number
      = some ("AB12345")
  ∧ (extract_confirmation_details ("Your order number: AB12345 Total: $45.50")).total_cost
      = some ((91 : Rat) / 2) := by
  constructor
  · decide
  · have hc : first_pat_match cost_patterns cap_cost
        (("Your order number: AB12345 Total: $45.50").toList)
        = some [('4'), ('5'), ('.'), ('5'), ('0')] := by decide
    have ht : List.takeWhile is_digit_char [('4'), ('5'), ('.'), ('5'), ('0')]
        = [('4'), ('5')] := by decide
    have h4 : digits_to_nat [('4'), ('5')] = 45 := by decide
    have h5 : digits_to_nat [('5'), ('0')] = 50 := by decide
    have hp : parse_float_dec [('4'), ('5'), ('.'), ('5'), ('0')] = (91 : Rat) / 2 := by
      simp only [parse_float_dec, ht]
      norm_num [h4, h5]
    unfold extract_confirmation_details
    dsimp only
    rw [hc]
    simp [hp]

/-- C9: an iteration that classifies the page as bookable runs exactly one
booking attempt for `min remaining_tickets 4` tickets and appends its
result; when that attempt succeeds, the result reports exactly that
requested quantity as booked, and it is subtracted from the remaining
tickets. -/
theorem C9_bookable_attempt_quantity (env : IterEnv) (rem : Nat) (st : ScraperState)
    (hexn : env.exn = none) (hticket : is_ticket_page env.page_text = true) :
    (book_step env rem st).res = [attempt_booking env.attempt (min rem 4)]
  ∧ ((attempt_booking env.attempt (min rem 4)).success = true →
      (attempt_booking env.attempt (min rem 4)).tickets_booked = min rem 4
      ∧ (book_step env rem st).rem = rem - min rem 4) := by
  have ht := attempt_booking_tickets env.attempt (min rem 4)
  constructor
  · unfold book_step
    rw [hexn]
    by_cases h2 : (attempt_booking env.attempt (min rem 4)).success <;> simp [hticket, h2]
  · intro hs
    simp only [hs, if_true] at ht
    refine ⟨ht, ?_⟩
    unfold book_step
    rw [hexn]
    simp [hticket, hs, ht]

/-- Witness for C9 at a concrete bookable page with 10 remaining tickets:
the attempt is made for `min 10 4 = 4` tickets. -/
theorem C9_bookable_attempt_quantity_witness :
    (book_step book_iter 10 fresh_scraper).res
        = [attempt_booking book_iter.attempt (min 10 4)]
  ∧ ((attempt_booking book_iter.attempt (min 10 4)).success = true →
      (attempt_booking book_iter.attempt (min 10 4)).tickets_booked = min 10 4
      ∧ (book_step book_iter 10 fresh_scraper).rem = 10 - min 10 4) :=
  C9_bookable_attempt_quantity book_iter 10 fresh_scraper rfl (by decide)

/-- C10: `booking_attempts` is instance state that `book_tickets` never
resets: (1) it never decreases across a call; (2) if it starts `≤
max_retries` it ends `≤ max_retries`, so — as every loop iteration
increments it exactly once — the total number of iterations summed over all
calls on one instance started fresh is bounded by `max_retries`; (3) a call
that starts with the budget exhausted returns an empty result sequence even
when tickets are requested; (4) in particular, after chaining two calls on
one instance started fresh, the accumulated attempt counter (= total
iterations of both runs) is still `≤ max_retries`. -/
theorem C10_attempts_counter_persists :
    (∀ (max_retries tc : Nat) (envs : Nat → IterEnv) (st : ScraperState),
        st.booking_attempts ≤ (book_tickets max_retries envs st tc).st.booking_attempts)
  ∧ (∀ (max_retries tc : Nat) (envs : Nat → IterEnv) (st : ScraperState),
        st.booking_attempts ≤ max_retries →
        (book_tickets max_retries envs st tc).st.booking_attempts ≤ max_retries)
  ∧ (∀ (max_retries tc : Nat) (envs : Nat → IterEnv) (st : ScraperState),
        max_retries ≤ st.booking_attempts →
        book_tickets max_retries envs st tc = { rem := tc, st := st, res := [] })
  ∧ (∀ (max_retries tc1 tc2 : Nat) (envs1 envs2 : Nat → IterEnv),
        (book_tickets max_retries envs2
            (book_tickets max_retries envs1 fresh_scraper tc1).st tc2).st.booking_attempts
          ≤ max_retries) := by
  have mono : ∀ (max_retries tc : Nat) (envs : Nat → IterEnv) (st : ScraperState),
      st.booking_attempts ≤ (book_tickets max_retries envs st tc).st.booking_attempts := by
    intro max_retries tc envs st
    have h := (book_tickets_aux_facts max_retries envs max_retries tc st []).1
    unfold book_tickets
    exact h
  have bound : ∀ (max_retries tc : Nat) (envs : Nat → IterEnv) (st : ScraperState),
      st.booking_attempts ≤ max_retries →
      (book_tickets max_retries envs st tc).st.booking_attempts ≤ max_retries := by
    intro max_retries tc envs st hst
    have h := (book_tickets_aux_facts max_retries envs max_retries tc st []).2.1
    unfold book_tickets
    omega
  refine ⟨mono, bound, ?_, ?_⟩
  · intro max_retries tc envs st hst
    unfold book_tickets
    exact book_tickets_aux_stop max_retries envs max_retries tc st [] (by omega)
  · intro max_retries tc1 tc2 envs1 envs2
    exact bound max_retries tc2 envs2 _
      (bound max_retries tc1 envs1 fresh_scraper (Nat.zero_le max_retries))

/-- Witness for C10: a first call on a fresh instance with budget 2 stays
within the budget, and a call on an instance whose budget is already
exhausted (`booking_attempts = 2 = max_retries`) returns no results even
though 5 tickets are requested. -/
theorem C10_attempts_counter_persists_witness :
    (book_tickets 2 (fun _ => raise_iter) fresh_scraper 5).st.booking_attempts ≤ 2
  ∧ book_tickets 2 (fun _ => raise_iter)
        { booking_attempts := 2, successful_bookings := 0 } 5
      = { rem := 5, st := { booking_attempts := 2, successful_bookings := 0 },
          res := [] } :=
  ⟨C10_attempts_counter_persists.2.1 2 5 (fun _ => raise_iter) fresh_scraper (by decide),
   C10_attempts_counter_persists.2.2.1 2 5 (fun _ => raise_iter)
     { booking_attempts := 2, successful_bookings := 0 } (by decide)⟩
